import Mathlib

/-!
Shallow embedding of `sqlmodel_repo.py` (levy42/sqlmodel-repo).

Records are rows with integer-valued named fields; the database visible
through a session is a list of records.  SQL statements are modelled as a
first-order structure (projection columns, where-clause, ordering,
offset/limit) with an executable row semantics; column values compare with
SQL null semantics (a comparison involving a missing value is not true).
Errors raised by the Python code (ValueError for a missing session/engine,
AttributeError from getattr) are modelled with an error type, and every
operation that enters a session scope reports, besides its result, which
session was yielded, which sessions were closed, the queries that were
executed, and the database state it leaves behind.
-/

/-- A row / model instance: named integer fields ("id" included). -/
structure Record where
  fields : List (String × Int)
deriving DecidableEq

/-- Attribute access on an instance: first binding of the name, if any. -/
def Record.get (r : Record) (f : String) : Option Int :=
  (r.fields.find? (fun kv => kv.1 == f)).map (fun kv => kv.2)

/-- Replace the first binding of a name, or append a new one. -/
def setAttrFields : List (String × Int) → String → Int → List (String × Int)
  | [], k, v => [(k, v)]
  | kv :: rest, k, v =>
    if kv.1 = k then (k, v) :: rest else kv :: setAttrFields rest k v

/-- Python setattr on a model instance. -/
def Record.setattr (r : Record) (k : String) (v : Int) : Record :=
  ⟨setAttrFields r.fields k v⟩

/-- The Record Type (model class): its name and declared attributes. -/
structure Model where
  name : String
  fieldNames : List String
deriving DecidableEq

/-- Errors this layer can raise. -/
inductive RepoError where
  | noSessionNoEngine
  | attributeError (f : String)
  | http404 (detail : String)
deriving DecidableEq

/-- getattr(model, f): the column named f, or AttributeError. -/
def Model.getattr (m : Model) (f : String) : Except RepoError String :=
  if m.fieldNames.contains f then .ok f else .error (.attributeError f)

/-- The engine: a handle on the database contents. -/
structure Engine where
  db : List Record
deriving DecidableEq

/-- A unit-of-work session; it sees a database state. -/
structure Sess where
  db : List Record
deriving DecidableEq

/-- Session(db_engine): a fresh session bound to the engine. -/
def Sess.fromEngine (e : Engine) : Sess := ⟨e.db⟩

/-- A column-valued expression usable as the left side of an equality. -/
inductive Expr where
  | attr (f : String)
  | rawE (g : Record → Option Int)

/-- Evaluate an expression on a row. -/
def Expr.evalE : Expr → Record → Option Int
  | .attr f, r => r.get f
  | .rawE g, r => g r

/-- SQL equality with null semantics: true only when both sides are present
and equal. -/
def optEq (a b : Option Int) : Bool :=
  match a, b with
  | some x, some y => x == y
  | _, _ => false

/-- A where-clause predicate: an equality comparison built by the repository
(expression == value) or an opaque caller-supplied boolean expression. -/
inductive Predicate where
  | eqExpr (e : Expr) (v : Option Int)
  | raw (p : Record → Bool)

/-- Evaluate a predicate on a row. -/
def Predicate.eval : Predicate → Record → Bool
  | .eqExpr e v, r => optEq (e.evalE r) v
  | .raw p, r => p r

/-- A select statement: projected columns (none = the whole model),
conjunctive where-clause, optional ordering (field, descending flag),
optional offset and limit. -/
structure Stmt where
  cols : Option (List String)
  whereclause : List Predicate
  ordering : Option (String × Bool)
  off : Option Nat
  lim : Option Nat

/-- select(*objs): a fresh statement with the given projection. -/
def select (cols : Option (List String)) : Stmt :=
  ⟨cols, [], none, none, none⟩

/-- stmt.where(*preds): conjoin further predicates. -/
def Stmt.addWhere (s : Stmt) (ps : List Predicate) : Stmt :=
  { s with whereclause := s.whereclause ++ ps }

/-- stmt.order_by(col) / col.desc(): set the ordering. -/
def Stmt.order_by (s : Stmt) (f : String) (d : Bool) : Stmt :=
  { s with ordering := some (f, d) }

/-- stmt.offset(n). -/
def Stmt.offset (s : Stmt) (n : Nat) : Stmt :=
  { s with off := some n }

/-- stmt.limit(n). -/
def Stmt.limit (s : Stmt) (n : Nat) : Stmt :=
  { s with lim := some n }

/-- The sort key of a row for an order-by column; a missing value sorts
below every present value. -/
def sortKey (f : String) (r : Record) : WithBot Int :=
  match r.get f with
  | none => ⊥
  | some v => (v : WithBot Int)

/-- Row comparison used by ORDER BY: ascending on the key, or descending
when the flag is set. -/
def ordLe (f : String) (d : Bool) (a b : Record) : Prop :=
  match d with
  | false => sortKey f a ≤ sortKey f b
  | true => sortKey f b ≤ sortKey f a

instance (f : String) (d : Bool) : DecidableRel (ordLe f d) := fun a b =>
  match d with
  | false => inferInstanceAs (Decidable (sortKey f a ≤ sortKey f b))
  | true => inferInstanceAs (Decidable (sortKey f b ≤ sortKey f a))

instance (f : String) (d : Bool) : IsTotal Record (ordLe f d) :=
  ⟨fun a b => by cases d <;> exact le_total _ _⟩

instance (f : String) (d : Bool) : IsTrans Record (ordLe f d) :=
  ⟨fun a b c hab hbc => by
    cases d
    · exact le_trans (α := WithBot Int) hab hbc
    · exact le_trans (α := WithBot Int) hbc hab⟩

/-- Keep only the projected columns of a row. -/
def projectRow (cols : Option (List String)) (r : Record) : Record :=
  match cols with
  | none => r
  | some fs => ⟨r.fields.filter (fun kv => fs.contains kv.1)⟩

/-- Execute a select statement against a database state: filter by the
where-clause, apply the ordering, then offset, then limit, then project. -/
def Stmt.rows (s : Stmt) (db : List Record) : List Record :=
  let filtered := db.filter (fun r => s.whereclause.all (fun p => p.eval r))
  let ordered :=
    match s.ordering with
    | none => filtered
    | some (f, d) => List.insertionSort (ordLe f d) filtered
  let shifted := ordered.drop (s.off.getD 0)
  let sliced :=
    match s.lim with
    | none => shifted
    | some l => shifted.take l
  sliced.map (projectRow s.cols)

/-- An executed query, for the execution log. -/
inductive Query where
  | sel (s : Stmt)
  | countOf (s : Stmt)
  | upd (w : List Predicate) (vals : List (String × Int))
  | del (w : List Predicate)

/-- What a with-block body produces: a result or a raised error, the
database state it leaves, and the queries it executed, in order. -/
structure BodyOut (α : Type) where
  result : Except RepoError α
  db : List Record
  queries : List Query

/-- What a whole session scope produces: the body outcome plus the session
that was yielded (if any) and the sessions the helper closed. -/
structure ScopeOut (α : Type) where
  result : Except RepoError α
  yielded : Option Sess
  closed : List Sess
  queries : List Query
  db : Option (List Record)

/-- An operation that fails before entering any session scope. -/
def ScopeOut.abort (e : RepoError) : ScopeOut α :=
  ⟨.error e, none, [], [], none⟩

/-- reuse_session_or_new(db_engine, session): yield the supplied session
as-is, or create one from the engine (closing it in the finally block), or
raise ValueError when neither is available.  should_close is true exactly
on the created-session branch, and the finally block closes exactly then,
whether the body returns or raises. -/
def reuse_session_or_new (db_engine : Option Engine) (session : Option Sess)
    (body : Sess → BodyOut α) : ScopeOut α :=
  match session with
  | some s =>
    let b := body s
    ⟨b.result, some s, [], b.queries, some b.db⟩
  | none =>
    match db_engine with
    | none => ⟨.error .noSessionNoEngine, none, [], [], none⟩
    | some e =>
      let s := Sess.fromEngine e
      let b := body s
      ⟨b.result, some s, [s], b.queries, some b.db⟩

/-- The database state an operation on this engine/session pair will see,
when one is available (the supplied session takes precedence). -/
def effDb (db_engine : Option Engine) (session : Option Sess) :
    Option (List Record) :=
  match session with
  | some s => some s.db
  | none => db_engine.map (fun e => (Sess.fromEngine e).db)

/-- The repository: model, engine handle, optional stored filtered
statement, optional bound session. -/
structure SQLModelRepo where
  model : Model
  db_engine : Option Engine
  init_stmt_ : Option Stmt
  session : Option Sess

namespace SQLModelRepo

/-- _get_select_obj: the whole model when no fields are given, else the
named columns (AttributeError on an unknown name). -/
def _get_select_obj (repo : SQLModelRepo) (fields : List String) :
    Except RepoError (Option (List String)) :=
  if fields.isEmpty then .ok none
  else (fields.mapM repo.model.getattr).map some

/-- init_stmt(*fields): the stored statement when present (fields are then
ignored), else a fresh select over the projection. -/
def init_stmt (repo : SQLModelRepo) (fields : List String) :
    Except RepoError Stmt :=
  match repo.init_stmt_ with
  | some s => .ok s
  | none => (repo._get_select_obj fields).map select

/-- __call__(session): a new repository with the same model and engine, no
stored statement, bound to the given session. -/
def call (repo : SQLModelRepo) (s : Sess) : SQLModelRepo :=
  ⟨repo.model, repo.db_engine, none, some s⟩

/-- Translate one keyword argument of filter, as the comprehension does: a
string key k becomes getattr(model, k) == v, and a key that is already an
expression object becomes k == v. -/
def kwargToPred (m : Model) : (String ⊕ Expr) × Option Int →
    Except RepoError Predicate
  | (.inl k, v) => (m.getattr k).map (fun f => .eqExpr (.attr f) v)
  | (.inr e, v) => .ok (.eqExpr e v)

/-- filter(*filters, _fields=(), **kwargs): a new repository whose stored
statement conjoins the caller predicates and the keyword equalities onto
init_stmt(*_fields). -/
def filter (repo : SQLModelRepo) (filters : List Predicate)
    (_fields : List String) (kwargs : List ((String ⊕ Expr) × Option Int)) :
    Except RepoError SQLModelRepo := do
  let base ← repo.init_stmt _fields
  let kw ← kwargs.mapM (kwargToPred repo.model)
  pure ⟨repo.model, repo.db_engine,
    some (base.addWhere (filters ++ kw)), repo.session⟩

/-- create(**kwargs): instantiate the model and persist it. -/
def create (repo : SQLModelRepo) (kwargs : List (String × Int)) :
    ScopeOut Record :=
  let instanc : Record := ⟨kwargs⟩
  reuse_session_or_new repo.db_engine repo.session (fun s =>
    ⟨.ok instanc, s.db ++ [instanc], []⟩)

/-- get_by_id(id, *fields): init_stmt(*fields) (outside the session scope),
then the first row of that statement restricted to id equality. -/
def get_by_id (repo : SQLModelRepo) (id : Int) (fields : List String) :
    ScopeOut (Option Record) :=
  match repo.init_stmt fields with
  | .error e => ScopeOut.abort e
  | .ok stmt =>
    reuse_session_or_new repo.db_engine repo.session (fun s =>
      match repo.model.getattr "id" with
      | .error e => ⟨.error e, s.db, []⟩
      | .ok f =>
        let q := stmt.addWhere [.eqExpr (.attr f) (some id)]
        ⟨.ok ((q.rows s.db).head?), s.db, [.sel q]⟩)

/-- save(instance): add and persist the instance. -/
def save (repo : SQLModelRepo) (instanc : Record) : ScopeOut Unit :=
  reuse_session_or_new repo.db_engine repo.session (fun s =>
    ⟨.ok (), s.db ++ [instanc], []⟩)

/-- Replace the first row satisfying p (the tracked row the mutation and
commit write back). -/
def replaceFirst (db : List Record) (p : Record → Bool) (r2 : Record) :
    List Record :=
  match db with
  | [] => []
  | r :: rest => if p r then r2 :: rest else r :: replaceFirst rest p r2

/-- save_or_update(instance): select the first existing row with the same
primary key; if found, setattr every dumped field of the input onto that
tracked row (rebinding the local to it) and commit the mutation; else add
the input as a new row.  The Python function returns None; the modelled
result is the instance the final session.refresh targets. -/
def save_or_update (repo : SQLModelRepo) (instanc : Record) :
    ScopeOut Record :=
  reuse_session_or_new repo.db_engine repo.session (fun s =>
    match repo.model.getattr "id" with
    | .error e => ⟨.error e, s.db, []⟩
    | .ok f =>
      let p := fun r => (Predicate.eqExpr (.attr f) (instanc.get f)).eval r
      let selStmt := (select none).addWhere [.eqExpr (.attr f) (instanc.get f)]
      let q := [Query.sel selStmt]
      match (selStmt.rows s.db).head? with
      | some ex =>
        let ex2 := instanc.fields.foldl
          (fun acc kv => acc.setattr kv.1 kv.2) ex
        if instanc.fields.isEmpty then ⟨.ok instanc, s.db, q⟩
        else ⟨.ok ex2, replaceFirst s.db p ex2, q⟩
      | none => ⟨.ok instanc, s.db ++ [instanc], q⟩)

/-- Apply a keyed mapping of new values to a row. -/
def setFields (r : Record) (kvs : List (String × Int)) : Record :=
  kvs.foldl (fun acc kv => acc.setattr kv.1 kv.2) r

/-- update(id, **kwargs): a partial update restricted to the given id. -/
def update (repo : SQLModelRepo) (id : Int)
    (kwargs : List (String × Int)) : ScopeOut Unit :=
  reuse_session_or_new repo.db_engine repo.session (fun s =>
    match repo.model.getattr "id" with
    | .error e => ⟨.error e, s.db, []⟩
    | .ok f =>
      let w := [Predicate.eqExpr (.attr f) (some id)]
      ⟨.ok (),
        s.db.map (fun r =>
          if w.all (fun p => p.eval r) then setFields r kwargs else r),
        [.upd w kwargs]⟩)

/-- update_all(**kwargs): partial update of every row matching the stored
statement's where-clause (every row when unfiltered). -/
def update_all (repo : SQLModelRepo) (kwargs : List (String × Int)) :
    ScopeOut Unit :=
  reuse_session_or_new repo.db_engine repo.session (fun s =>
    let w := match repo.init_stmt_ with
      | some st => st.whereclause
      | none => []
    ⟨.ok (),
      s.db.map (fun r =>
        if w.all (fun p => p.eval r) then setFields r kwargs else r),
      [.upd w kwargs]⟩)

/-- delete(instance): remove the row from the database. -/
def delete (repo : SQLModelRepo) (instanc : Record) : ScopeOut Unit :=
  reuse_session_or_new repo.db_engine repo.session (fun s =>
    ⟨.ok (), s.db.erase instanc, []⟩)

/-- delete_all(): delete every row matching the stored statement's
where-clause (every row when unfiltered). -/
def delete_all (repo : SQLModelRepo) : ScopeOut Unit :=
  reuse_session_or_new repo.db_engine repo.session (fun s =>
    let w := match repo.init_stmt_ with
      | some st => st.whereclause
      | none => []
    ⟨.ok (),
      s.db.filter (fun r => !(w.all (fun p => p.eval r))),
      [.del w]⟩)

/-- _paginate(session, offset, limit, order_by, desc): resolve the order-by
attribute (AttributeError first), then execute
init_stmt().order_by(...).offset(offset).limit(limit). -/
def _paginate (repo : SQLModelRepo) (s : Sess) (offset limit : Nat)
    (order_by : String) (desc : Bool) : BodyOut (List Record) :=
  match repo.model.getattr order_by with
  | .error e => ⟨.error e, s.db, []⟩
  | .ok f =>
    match repo.init_stmt [] with
    | .error e => ⟨.error e, s.db, []⟩
    | .ok stmt =>
      let q := ((stmt.order_by f desc).offset offset).limit limit
      ⟨.ok (q.rows s.db), s.db, [.sel q]⟩

/-- paginate(offset, limit, order_by, desc). -/
def paginate (repo : SQLModelRepo) (offset limit : Nat)
    (order_by : String) (desc : Bool) : ScopeOut (List Record) :=
  reuse_session_or_new repo.db_engine repo.session (fun s =>
    repo._paginate s offset limit order_by desc)

/-- paginate_with_total(offset, limit, order_by, desc): execute the
count-over-subquery of init_stmt() first, then the page query. -/
def paginate_with_total (repo : SQLModelRepo) (offset limit : Nat)
    (order_by : String) (desc : Bool) : ScopeOut (List Record × Nat) :=
  reuse_session_or_new repo.db_engine repo.session (fun s =>
    match repo.init_stmt [] with
    | .error e => ⟨.error e, s.db, []⟩
    | .ok stmt =>
      let count := (stmt.rows s.db).length
      let pb := repo._paginate s offset limit order_by desc
      match pb.result with
      | .error e => ⟨.error e, pb.db, Query.countOf stmt :: pb.queries⟩
      | .ok items => ⟨.ok (items, count), pb.db,
          Query.countOf stmt :: pb.queries⟩)

/-- all(): every row of the stored (or fresh) statement. -/
def all (repo : SQLModelRepo) : ScopeOut (List Record) :=
  reuse_session_or_new repo.db_engine repo.session (fun s =>
    match repo.init_stmt [] with
    | .error e => ⟨.error e, s.db, []⟩
    | .ok stmt => ⟨.ok (stmt.rows s.db), s.db, [.sel stmt]⟩)

/-- count(): count-over-subquery of the stored (or fresh) statement. -/
def count (repo : SQLModelRepo) : ScopeOut Nat :=
  reuse_session_or_new repo.db_engine repo.session (fun s =>
    match repo.init_stmt [] with
    | .error e => ⟨.error e, s.db, []⟩
    | .ok stmt => ⟨.ok ((stmt.rows s.db).length), s.db, [.countOf stmt]⟩)

/-- first(): the first row of the stored (or fresh) statement. -/
def first (repo : SQLModelRepo) : ScopeOut (Option Record) :=
  reuse_session_or_new repo.db_engine repo.session (fun s =>
    match repo.init_stmt [] with
    | .error e => ⟨.error e, s.db, []⟩
    | .ok stmt => ⟨.ok ((stmt.rows s.db).head?), s.db, [.sel stmt]⟩)

end SQLModelRepo

/-! ## General lemmas about the embedding -/

/-- The first element of a filtered list is the first element satisfying
the filter. -/
theorem head?_filter_eq_find? (p : Record → Bool) (l : List Record) :
    (l.filter p).head? = l.find? p := by
  induction l with
  | nil => rfl
  | cons a l ih =>
    by_cases h : p a
    · simp [List.filter_cons, List.find?, h]
    · simp [List.filter_cons, List.find?, h, ih]

/-- Projection over the whole model leaves rows unchanged. -/
theorem projectRow_none : projectRow none = id := rfl

/-- An unfiltered select over the model returns the database as-is. -/
theorem rows_select_none (db : List Record) : (select none).rows db = db := by
  simp [select, Stmt.rows, projectRow_none]

/-- A single-predicate where-clause over an unfiltered select filters the
database by that predicate. -/
theorem rows_select_none_addWhere (p : Predicate) (db : List Record) :
    ((select none).addWhere [p]).rows db = db.filter (fun r => p.eval r) := by
  simp [select, Stmt.addWhere, Stmt.rows, projectRow_none]

/-! ## Claims -/

/-- Claim C1: the session the scope helper yields is closed on every exit
path (normal return or raised error, both covered by quantifying over the
body outcome) if and only if the helper itself created that session: a
supplied session is yielded as-is and never closed; a session created from
the engine is closed on every exit path. -/
theorem claim_C1 {α : Type} (eng : Option Engine) (sopt : Option Sess)
    (body : Sess → BodyOut α) :
    (∀ s, sopt = some s →
      (reuse_session_or_new eng sopt body).yielded = some s ∧
      (reuse_session_or_new eng sopt body).closed = []) ∧
    (∀ e, sopt = none → eng = some e →
      (reuse_session_or_new eng sopt body).yielded =
        some (Sess.fromEngine e) ∧
      (reuse_session_or_new eng sopt body).closed = [Sess.fromEngine e]) := by
  cases sopt <;> cases eng <;> simp [reuse_session_or_new]

/-- Witness for C1 at concrete inputs: a caller-supplied session is never
closed even when the body raises, and a helper-created session is closed
even when the body raises. -/
theorem claim_C1_witness :
    ((reuse_session_or_new (α := Unit) (some ⟨[]⟩) (some ⟨[]⟩)
        (fun s => ⟨.error (.attributeError "x"), s.db, []⟩)).closed = [] ∧
      (reuse_session_or_new (α := Unit) (some ⟨[]⟩) (some ⟨[]⟩)
        (fun s => ⟨.error (.attributeError "x"), s.db, []⟩)).yielded =
        some ⟨[]⟩) ∧
    (reuse_session_or_new (α := Unit) (some ⟨[]⟩) none
      (fun s => ⟨.error (.attributeError "x"), s.db, []⟩)).closed =
      [Sess.fromEngine ⟨[]⟩] := by
  refine ⟨⟨?_, ?_⟩, ?_⟩
  · exact ((claim_C1 (some ⟨[]⟩) (some ⟨[]⟩) _).1 ⟨[]⟩ rfl).2
  · exact ((claim_C1 (some ⟨[]⟩) (some ⟨[]⟩) _).1 ⟨[]⟩ rfl).1
  · exact ((claim_C1 (some ⟨[]⟩) none _).2 ⟨[]⟩ rfl rfl).2

/-- Claim C2: on a repository with no bound session and no engine, every
operation fails with the configuration error raised by the session scope
helper, and no query is executed. -/
theorem claim_C2 (repo : SQLModelRepo) (hs : repo.session = none)
    (he : repo.db_engine = none) (id : Int) (instanc : Record)
    (kwargs : List (String × Int)) (off lim : Nat) (ob : String) (d : Bool) :
    ((repo.create kwargs).result = .error .noSessionNoEngine ∧
      (repo.create kwargs).queries = []) ∧
    ((repo.get_by_id id []).result = .error .noSessionNoEngine ∧
      (repo.get_by_id id []).queries = []) ∧
    ((repo.save instanc).result = .error .noSessionNoEngine ∧
      (repo.save instanc).queries = []) ∧
    ((repo.save_or_update instanc).result = .error .noSessionNoEngine ∧
      (repo.save_or_update instanc).queries = []) ∧
    ((repo.update id kwargs).result = .error .noSessionNoEngine ∧
      (repo.update id kwargs).queries = []) ∧
    ((repo.update_all kwargs).result = .error .noSessionNoEngine ∧
      (repo.update_all kwargs).queries = []) ∧
    ((repo.delete instanc).result = .error .noSessionNoEngine ∧
      (repo.delete instanc).queries = []) ∧
    (repo.delete_all.result = .error .noSessionNoEngine ∧
      repo.delete_all.queries = []) ∧
    ((repo.paginate off lim ob d).result = .error .noSessionNoEngine ∧
      (repo.paginate off lim ob d).queries = []) ∧
    ((repo.paginate_with_total off lim ob d).result =
        .error .noSessionNoEngine ∧
      (repo.paginate_with_total off lim ob d).queries = []) ∧
    (repo.all.result = .error .noSessionNoEngine ∧
      repo.all.queries = []) ∧
    (repo.count.result = .error .noSessionNoEngine ∧
      repo.count.queries = []) ∧
    (repo.first.result = .error .noSessionNoEngine ∧
      repo.first.queries = []) := by
  rcases repo with ⟨m, eng, ist, sopt⟩
  obtain rfl : sopt = none := hs
  obtain rfl : eng = none := he
  cases ist <;>
    simp [SQLModelRepo.create, SQLModelRepo.get_by_id, SQLModelRepo.save,
      SQLModelRepo.save_or_update, SQLModelRepo.update,
      SQLModelRepo.update_all, SQLModelRepo.delete, SQLModelRepo.delete_all,
      SQLModelRepo.paginate, SQLModelRepo.paginate_with_total,
      SQLModelRepo.all, SQLModelRepo.count, SQLModelRepo.first,
      SQLModelRepo.init_stmt, SQLModelRepo._get_select_obj,
      Except.map, reuse_session_or_new]

/-- Witness for C2 at a concrete repository with no session and no engine. -/
theorem claim_C2_witness :
    ((⟨⟨"User", ["id"]⟩, none, none, none⟩ :
        SQLModelRepo).get_by_id 1 []).result = .error .noSessionNoEngine ∧
    ((⟨⟨"User", ["id"]⟩, none, none, none⟩ :
        SQLModelRepo).all).result = .error .noSessionNoEngine :=
  ⟨(claim_C2 ⟨⟨"User", ["id"]⟩, none, none, none⟩ rfl rfl 1 ⟨[]⟩ [] 0 0
      "id" false).2.1.1,
    (claim_C2 ⟨⟨"User", ["id"]⟩, none, none, none⟩ rfl rfl 1 ⟨[]⟩ [] 0 0
      "id" false).2.2.2.2.2.2.2.2.2.2.1.1⟩

/-- Claim C10 (implicit): binding via the call operation always returns a
repository with no stored deferred statement — even when the original was
produced by filter — so a previously applied filter is discarded and
operations on the bound repository run against the full table. -/
theorem claim_C10 (repo : SQLModelRepo) (s : Sess) :
    (repo.call s).init_stmt_ = none ∧
    (repo.call s).model = repo.model ∧
    (repo.call s).db_engine = repo.db_engine ∧
    (repo.call s).session = some s ∧
    ((repo.call s).all).result = .ok s.db ∧
    ((repo.call s).all).queries = [Query.sel (select none)] := by
  refine ⟨rfl, rfl, rfl, rfl, ?_, ?_⟩ <;>
    simp [SQLModelRepo.call, SQLModelRepo.all, SQLModelRepo.init_stmt,
      SQLModelRepo._get_select_obj, Except.map, reuse_session_or_new,
      rows_select_none]

/-- SQL equality against a present value holds exactly on that value. -/
theorem optEq_some_iff (a : Option Int) (v : Int) :
    optEq a (some v) = true ↔ a = some v := by
  cases a <;> simp [optEq]

/-- Claim C3: get_by_id returns the first record matching the primary key
when one exists, and the explicit absence marker (none, inside a normal
.ok result, never an error) when no record has that key. -/
theorem claim_C3 (m : Model) (eng : Option Engine) (sopt : Option Sess)
    (id : Int) (db : List Record)
    (hid : "id" ∈ m.fieldNames)
    (hdb : effDb eng sopt = some db) :
    ((⟨m, eng, none, sopt⟩ : SQLModelRepo).get_by_id id []).result =
      .ok (db.find? (fun r => optEq (r.get "id") (some id))) ∧
    ((∀ r ∈ db, r.get "id" ≠ some id) →
      ((⟨m, eng, none, sopt⟩ : SQLModelRepo).get_by_id id []).result =
        .ok none) := by
  have hmain : ((⟨m, eng, none, sopt⟩ : SQLModelRepo).get_by_id id []).result
      = .ok (db.find? (fun r => optEq (r.get "id") (some id))) := by
    cases sopt with
    | some s =>
      obtain rfl : s.db = db := by simpa [effDb] using hdb
      simp [SQLModelRepo.get_by_id, SQLModelRepo.init_stmt,
        SQLModelRepo._get_select_obj, Except.map, reuse_session_or_new,
        Model.getattr, hid, rows_select_none_addWhere,
        head?_filter_eq_find?, Predicate.eval, Expr.evalE]
    | none =>
      cases eng with
      | none => simp [effDb] at hdb
      | some e =>
        obtain rfl : e.db = db := by simpa [effDb, Sess.fromEngine] using hdb
        simp [SQLModelRepo.get_by_id, SQLModelRepo.init_stmt,
          SQLModelRepo._get_select_obj, Except.map, reuse_session_or_new,
          Sess.fromEngine, Model.getattr, hid, rows_select_none_addWhere,
          head?_filter_eq_find?, Predicate.eval, Expr.evalE]
  refine ⟨hmain, fun habs => ?_⟩
  rw [hmain]
  have : db.find? (fun r => optEq (r.get "id") (some id)) = none := by
    rw [List.find?_eq_none]
    intro r hr hcontra
    exact habs r hr ((optEq_some_iff _ _).mp hcontra)
  rw [this]

/-- Witness for C3 at a concrete database: the key 1 is found, the key 2
is an explicit absence (no error). -/
theorem claim_C3_witness :
    ((⟨⟨"User", ["id"]⟩, some ⟨[⟨[("id", 1)]⟩]⟩, none, none⟩ :
        SQLModelRepo).get_by_id 1 []).result = .ok (some ⟨[("id", 1)]⟩) ∧
    ((⟨⟨"User", ["id"]⟩, some ⟨[⟨[("id", 1)]⟩]⟩, none, none⟩ :
        SQLModelRepo).get_by_id 2 []).result = .ok none := by
  constructor
  · have h := (claim_C3 ⟨"User", ["id"]⟩ (some ⟨[⟨[("id", 1)]⟩]⟩) none 1
      [⟨[("id", 1)]⟩] (by decide) rfl).1
    rw [h]; rfl
  · exact (claim_C3 ⟨"User", ["id"]⟩ (some ⟨[⟨[("id", 1)]⟩]⟩) none 2
      [⟨[("id", 1)]⟩] (by decide) rfl).2 (by decide)

/-- Claim C4: paginate_with_total returns a pair whose total count equals
the length of the list returned by all() on the same filtered repository,
independently of the offset and limit arguments (which are universally
quantified and absent from the count). -/
theorem claim_C4 (repo : SQLModelRepo) (off lim : Nat) (ob : String)
    (d : Bool) (db : List Record)
    (hdb : effDb repo.db_engine repo.session = some db)
    (hob : ob ∈ repo.model.fieldNames) :
    ∃ items allItems,
      (repo.paginate_with_total off lim ob d).result =
        .ok (items, allItems.length) ∧
      repo.all.result = .ok allItems := by
  rcases repo with ⟨m, eng, ist, sopt⟩
  have step : ∀ s : Sess, s.db = db →
      ∃ items allItems,
        ((⟨m, eng, ist, sopt⟩ : SQLModelRepo).paginate_with_total
            off lim ob d).result = .ok (items, allItems.length) ∧
        ((⟨m, eng, ist, sopt⟩ : SQLModelRepo).all).result = .ok allItems :=
    fun _ _ => by
      cases sopt with
      | some s2 =>
        cases ist with
        | some st =>
          exact ⟨(((st.order_by ob d).offset off).limit lim).rows s2.db,
            st.rows s2.db, by
              simp [SQLModelRepo.paginate_with_total, SQLModelRepo._paginate,
                SQLModelRepo.all, SQLModelRepo.init_stmt, Model.getattr, hob,
                reuse_session_or_new], by
              simp [SQLModelRepo.all, SQLModelRepo.init_stmt,
                reuse_session_or_new]⟩
        | none =>
          exact ⟨((((select none).order_by ob d).offset off).limit lim).rows
              s2.db, s2.db, by
              simp [SQLModelRepo.paginate_with_total, SQLModelRepo._paginate,
                SQLModelRepo.all, SQLModelRepo.init_stmt,
                SQLModelRepo._get_select_obj, Except.map, Model.getattr, hob,
                reuse_session_or_new, rows_select_none], by
              simp [SQLModelRepo.all, SQLModelRepo.init_stmt,
                SQLModelRepo._get_select_obj, Except.map,
                reuse_session_or_new, rows_select_none]⟩
      | none =>
        cases eng with
        | none => simp [effDb] at hdb
        | some e =>
          cases ist with
          | some st =>
            exact ⟨(((st.order_by ob d).offset off).limit lim).rows e.db,
              st.rows e.db, by
                simp [SQLModelRepo.paginate_with_total,
                  SQLModelRepo._paginate, SQLModelRepo.all,
                  SQLModelRepo.init_stmt, Model.getattr, hob,
                  reuse_session_or_new, Sess.fromEngine], by
                simp [SQLModelRepo.all, SQLModelRepo.init_stmt,
                  reuse_session_or_new, Sess.fromEngine]⟩
          | none =>
            exact ⟨((((select none).order_by ob d).offset off).limit
                lim).rows e.db, e.db, by
                simp [SQLModelRepo.paginate_with_total,
                  SQLModelRepo._paginate, SQLModelRepo.all,
                  SQLModelRepo.init_stmt, SQLModelRepo._get_select_obj,
                  Except.map, Model.getattr, hob, reuse_session_or_new,
                  Sess.fromEngine, rows_select_none], by
                simp [SQLModelRepo.all, SQLModelRepo.init_stmt,
                  SQLModelRepo._get_select_obj, Except.map,
                  reuse_session_or_new, Sess.fromEngine, rows_select_none]⟩
  exact step ⟨db⟩ rfl

/-- Witness for C4 at a concrete two-row database with limit 1: the count
is still the length of all(). -/
theorem claim_C4_witness :
    ∃ items allItems,
      ((⟨⟨"User", ["id"]⟩, some ⟨[⟨[("id", 1)]⟩, ⟨[("id", 2)]⟩]⟩, none,
          none⟩ : SQLModelRepo).paginate_with_total 0 1 "id" false).result =
        .ok (items, allItems.length) ∧
      ((⟨⟨"User", ["id"]⟩, some ⟨[⟨[("id", 1)]⟩, ⟨[("id", 2)]⟩]⟩, none,
          none⟩ : SQLModelRepo).all).result = .ok allItems :=
  claim_C4 ⟨⟨"User", ["id"]⟩, some ⟨[⟨[("id", 1)]⟩, ⟨[("id", 2)]⟩]⟩, none,
    none⟩ 0 1 "id" false [⟨[("id", 1)]⟩, ⟨[("id", 2)]⟩] rfl (by decide)

/-- Claim C5: each keyword argument of filter is handled by the overload in
the comprehension: a field-name (string) key becomes an equality predicate
of the Record Type's attribute against the value, while a key that is
already a predicate/expression object is itself compared for equality
against the value; filter accepts both and conjoins the results. -/
theorem claim_C5 (m : Model) (k : String) (e : Expr) (v : Option Int)
    (r : Record) (hk : k ∈ m.fieldNames) :
    SQLModelRepo.kwargToPred m (Sum.inl k, v) =
      .ok (Predicate.eqExpr (Expr.attr k) v) ∧
    (Predicate.eqExpr (Expr.attr k) v).eval r = optEq (r.get k) v ∧
    SQLModelRepo.kwargToPred m (Sum.inr e, v) =
      .ok (Predicate.eqExpr e v) ∧
    (Predicate.eqExpr e v).eval r = optEq (e.evalE r) v ∧
    (∀ repo : SQLModelRepo, repo.model = m → repo.init_stmt_ = none →
      repo.filter [] [] [(Sum.inl k, v), (Sum.inr e, v)] =
        .ok ⟨m, repo.db_engine,
          some ((select none).addWhere
            [Predicate.eqExpr (Expr.attr k) v, Predicate.eqExpr e v]),
          repo.session⟩) := by
  have hget : m.getattr k = .ok k := by simp [Model.getattr, hk]
  refine ⟨?_, rfl, rfl, rfl, ?_⟩
  · simp [SQLModelRepo.kwargToPred, hget, Except.map]
  · rintro ⟨m2, eng, ist, sopt⟩ hm hist
    obtain rfl : m2 = m := hm
    obtain rfl : ist = (none : Option Stmt) := hist
    simp only [SQLModelRepo.filter, SQLModelRepo.init_stmt,
      SQLModelRepo._get_select_obj, SQLModelRepo.kwargToPred, hget,
      Except.map, List.mapM, List.mapM.loop, Stmt.addWhere, select]
    rfl

/-- Witness for C5 at a concrete model, field and predicate object. -/
theorem claim_C5_witness :
    SQLModelRepo.kwargToPred ⟨"User", ["id"]⟩ (Sum.inl "id", some 1) =
      .ok (Predicate.eqExpr (Expr.attr "id") (some 1)) ∧
    (Predicate.eqExpr (Expr.attr "id") (some 1)).eval ⟨[("id", 1)]⟩ =
      optEq (Record.get ⟨[("id", 1)]⟩ "id") (some 1) ∧
    SQLModelRepo.kwargToPred ⟨"User", ["id"]⟩
        (Sum.inr (Expr.attr "id"), some 1) =
      .ok (Predicate.eqExpr (Expr.attr "id") (some 1)) := by
  have h := claim_C5 ⟨"User", ["id"]⟩ "id" (Expr.attr "id") (some 1)
    ⟨[("id", 1)]⟩ (by decide)
  exact ⟨h.1, h.2.1, h.2.2.1⟩

/-- Claim C6 as stated is false: on an unknown order-by name,
paginate_with_total does fail with the configuration error, but only after
the count query has executed, not before any query executes. -/
theorem claim_C6_counterexample :
    ((⟨⟨"User", ["id"]⟩, some ⟨[⟨[("id", 1)]⟩]⟩, none, none⟩ :
        SQLModelRepo).paginate_with_total 0 1 "nope" false).result =
      .error (.attributeError "nope") ∧
    ((⟨⟨"User", ["id"]⟩, some ⟨[⟨[("id", 1)]⟩]⟩, none, none⟩ :
        SQLModelRepo).paginate_with_total 0 1 "nope" false).queries ≠ [] := by
  refine ⟨rfl, fun h => ?_⟩
  have : (Query.countOf (select none) :: []) = ([] : List Query) := h
  exact List.noConfusion this

/-- Claim C6, amended: with an unknown order-by name both paginate and
paginate_with_total fail with the configuration error (AttributeError);
paginate raises it before any query executes, while paginate_with_total
raises it only after executing the count query (the page query itself
never executes). -/
theorem claim_C6_amended (repo : SQLModelRepo) (off lim : Nat) (ob : String)
    (d : Bool) (db : List Record)
    (hdb : effDb repo.db_engine repo.session = some db)
    (hob : ob ∉ repo.model.fieldNames) :
    (repo.paginate off lim ob d).result = .error (.attributeError ob) ∧
    (repo.paginate off lim ob d).queries = [] ∧
    (repo.paginate_with_total off lim ob d).result =
      .error (.attributeError ob) ∧
    ∃ stmt, (repo.paginate_with_total off lim ob d).queries =
      [Query.countOf stmt] := by
  rcases repo with ⟨m, eng, ist, sopt⟩
  cases sopt with
  | some s =>
    cases ist with
    | some st =>
      exact ⟨by simp [SQLModelRepo.paginate, SQLModelRepo._paginate,
          SQLModelRepo.init_stmt, Model.getattr, hob, reuse_session_or_new],
        by simp [SQLModelRepo.paginate, SQLModelRepo._paginate,
          SQLModelRepo.init_stmt, Model.getattr, hob, reuse_session_or_new],
        by simp [SQLModelRepo.paginate_with_total, SQLModelRepo._paginate,
          SQLModelRepo.init_stmt, Model.getattr, hob, reuse_session_or_new],
        st, by simp [SQLModelRepo.paginate_with_total, SQLModelRepo._paginate,
          SQLModelRepo.init_stmt, Model.getattr, hob, reuse_session_or_new]⟩
    | none =>
      exact ⟨by simp [SQLModelRepo.paginate, SQLModelRepo._paginate,
          SQLModelRepo.init_stmt, SQLModelRepo._get_select_obj, Except.map,
          Model.getattr, hob, reuse_session_or_new],
        by simp [SQLModelRepo.paginate, SQLModelRepo._paginate,
          SQLModelRepo.init_stmt, SQLModelRepo._get_select_obj, Except.map,
          Model.getattr, hob, reuse_session_or_new],
        by simp [SQLModelRepo.paginate_with_total, SQLModelRepo._paginate,
          SQLModelRepo.init_stmt, SQLModelRepo._get_select_obj, Except.map,
          Model.getattr, hob, reuse_session_or_new],
        select none, by simp [SQLModelRepo.paginate_with_total,
          SQLModelRepo._paginate, SQLModelRepo.init_stmt,
          SQLModelRepo._get_select_obj, Except.map, Model.getattr, hob,
          reuse_session_or_new]⟩
  | none =>
    cases eng with
    | none => simp [effDb] at hdb
    | some e =>
      cases ist with
      | some st =>
        exact ⟨by simp [SQLModelRepo.paginate, SQLModelRepo._paginate,
            SQLModelRepo.init_stmt, Model.getattr, hob,
            reuse_session_or_new],
          by simp [SQLModelRepo.paginate, SQLModelRepo._paginate,
            SQLModelRepo.init_stmt, Model.getattr, hob,
            reuse_session_or_new],
          by simp [SQLModelRepo.paginate_with_total, SQLModelRepo._paginate,
            SQLModelRepo.init_stmt, Model.getattr, hob,
            reuse_session_or_new],
          st, by simp [SQLModelRepo.paginate_with_total,
            SQLModelRepo._paginate, SQLModelRepo.init_stmt, Model.getattr,
            hob, reuse_session_or_new]⟩
      | none =>
        exact ⟨by simp [SQLModelRepo.paginate, SQLModelRepo._paginate,
            SQLModelRepo.init_stmt, SQLModelRepo._get_select_obj, Except.map,
            Model.getattr, hob, reuse_session_or_new],
          by simp [SQLModelRepo.paginate, SQLModelRepo._paginate,
            SQLModelRepo.init_stmt, SQLModelRepo._get_select_obj, Except.map,
            Model.getattr, hob, reuse_session_or_new],
          by simp [SQLModelRepo.paginate_with_total, SQLModelRepo._paginate,
            SQLModelRepo.init_stmt, SQLModelRepo._get_select_obj, Except.map,
            Model.getattr, hob, reuse_session_or_new],
          select none, by simp [SQLModelRepo.paginate_with_total,
            SQLModelRepo._paginate, SQLModelRepo.init_stmt,
            SQLModelRepo._get_select_obj, Except.map, Model.getattr, hob,
            reuse_session_or_new]⟩

/-- Witness for the amended C6 at a concrete repository. -/
theorem claim_C6_amended_witness :
    ((⟨⟨"User", ["id"]⟩, some ⟨[]⟩, none, none⟩ :
        SQLModelRepo).paginate 0 1 "nope" false).result =
      .error (.attributeError "nope") ∧
    ((⟨⟨"User", ["id"]⟩, some ⟨[]⟩, none, none⟩ :
        SQLModelRepo).paginate 0 1 "nope" false).queries = [] ∧
    ∃ stmt, ((⟨⟨"User", ["id"]⟩, some ⟨[]⟩, none, none⟩ :
        SQLModelRepo).paginate_with_total 0 1 "nope" false).queries =
      [Query.countOf stmt] := by
  have h := claim_C6_amended ⟨⟨"User", ["id"]⟩, some ⟨[]⟩, none, none⟩ 0 1
    "nope" false [] rfl (by decide)
  exact ⟨h.1, h.2.1, h.2.2.2⟩

/-- Claim C7: session-binding (the call operation) and filter each return a
new repository sharing the original's model and engine — the bound clone
scoped to the given session, the filtered clone carrying the combined
statement as its stored init-statement and keeping the original's session;
the embedding is purely functional, so neither operation mutates the
original. -/
theorem claim_C7 (repo : SQLModelRepo) (s : Sess) (filters : List Predicate)
    (kwargs : List ((String ⊕ Expr) × Option Int)) (kw : List Predicate)
    (base : Stmt)
    (hkw : kwargs.mapM (SQLModelRepo.kwargToPred repo.model) = .ok kw)
    (hbase : repo.init_stmt [] = .ok base) :
    ((repo.call s).model = repo.model ∧
      (repo.call s).db_engine = repo.db_engine ∧
      (repo.call s).session = some s) ∧
    repo.filter filters [] kwargs =
      .ok ⟨repo.model, repo.db_engine,
        some (base.addWhere (filters ++ kw)), repo.session⟩ := by
  refine ⟨⟨rfl, rfl, rfl⟩, ?_⟩
  simp only [List.mapM] at hkw
  simp [SQLModelRepo.filter, hbase, hkw, Except.map]
  rfl

/-- Witness for C7 at a concrete repository and keyword argument. -/
theorem claim_C7_witness :
    ((⟨⟨"User", ["id"]⟩, some ⟨[]⟩, none, none⟩ : SQLModelRepo).call
        ⟨[]⟩).session = some ⟨[]⟩ ∧
    (⟨⟨"User", ["id"]⟩, some ⟨[]⟩, none, none⟩ : SQLModelRepo).filter []
        [] [(Sum.inl "id", some 1)] =
      .ok ⟨⟨"User", ["id"]⟩, some ⟨[]⟩,
        some ((select none).addWhere
          ([] ++ [Predicate.eqExpr (Expr.attr "id") (some 1)])), none⟩ := by
  have h := claim_C7 ⟨⟨"User", ["id"]⟩, some ⟨[]⟩, none, none⟩ ⟨[]⟩ []
    [(Sum.inl "id", some 1)] [Predicate.eqExpr (Expr.attr "id") (some 1)]
    (select none) rfl rfl
  exact ⟨h.1.2.2, h.2⟩

/-- Executing the statement _paginate builds reduces to sorting the
filtered rows, then dropping the offset and taking the limit. -/
theorem rows_paginate (stmt : Stmt) (hcols : stmt.cols = none)
    (db : List Record) (off lim : Nat) (ob : String) (d : Bool) :
    (((stmt.order_by ob d).offset off).limit lim).rows db =
      ((List.insertionSort (ordLe ob d)
        (db.filter (fun r => stmt.whereclause.all (fun p => p.eval r)))).drop
          off).take lim := by
  obtain ⟨cols, w, o, f, l⟩ := stmt
  obtain rfl : cols = none := hcols
  simp [Stmt.order_by, Stmt.offset, Stmt.limit, Stmt.rows, projectRow_none]

/-- The result of paginate, under a usable session and a known order-by
attribute, is the sorted-filtered list sliced by offset and limit. -/
theorem paginate_ok (repo : SQLModelRepo) (off lim : Nat) (ob : String)
    (d : Bool) (db : List Record) (stmt : Stmt)
    (hdb : effDb repo.db_engine repo.session = some db)
    (hob : ob ∈ repo.model.fieldNames)
    (hstmt : repo.init_stmt [] = .ok stmt) :
    (repo.paginate off lim ob d).result =
      .ok ((((stmt.order_by ob d).offset off).limit lim).rows db) := by
  rcases repo with ⟨m, eng, ist, sopt⟩
  cases sopt with
  | some s =>
    obtain rfl : s.db = db := by simpa [effDb] using hdb
    simp only [SQLModelRepo.paginate, SQLModelRepo._paginate,
      reuse_session_or_new]
    simp [Model.getattr, hob, hstmt]
  | none =>
    cases eng with
    | none => simp [effDb] at hdb
    | some e =>
      obtain rfl : e.db = db := by simpa [effDb, Sess.fromEngine] using hdb
      simp only [SQLModelRepo.paginate, SQLModelRepo._paginate,
        reuse_session_or_new]
      simp [Model.getattr, hob, hstmt, Sess.fromEngine]

/-- Claim C8: paginate returns the filtered records ordered by the named
field (ascending for desc = false, descending for desc = true), with the
first offset records skipped and at most limit records returned; and
paginate(0, N) followed by paginate(N, N) covers exactly the records of
paginate(0, 2N), with no duplicates and no omissions (their concatenation
is equal, as lists, to the 2N-page). -/
theorem claim_C8 (repo : SQLModelRepo) (N off lim : Nat) (ob : String)
    (d : Bool) (db : List Record) (stmt : Stmt)
    (hdb : effDb repo.db_engine repo.session = some db)
    (hob : ob ∈ repo.model.fieldNames)
    (hstmt : repo.init_stmt [] = .ok stmt) (hcols : stmt.cols = none) :
    (repo.paginate off lim ob d).result =
      .ok ((((List.insertionSort (ordLe ob d) (db.filter (fun r =>
        stmt.whereclause.all (fun p => p.eval r)))).drop off).take lim)) ∧
    List.Pairwise (ordLe ob d) (((List.insertionSort (ordLe ob d)
      (db.filter (fun r => stmt.whereclause.all (fun p =>
        p.eval r)))).drop off).take lim) ∧
    ((((List.insertionSort (ordLe ob d) (db.filter (fun r =>
      stmt.whereclause.all (fun p => p.eval r)))).drop off).take
        lim)).length ≤ lim ∧
    (∀ a b c, (repo.paginate 0 N ob d).result = .ok a →
      (repo.paginate N N ob d).result = .ok b →
      (repo.paginate 0 (N + N) ob d).result = .ok c →
      a ++ b = c) := by
  have hpage : ∀ off2 lim2 : Nat, (repo.paginate off2 lim2 ob d).result =
      .ok ((((List.insertionSort (ordLe ob d) (db.filter (fun r =>
        stmt.whereclause.all (fun p => p.eval r)))).drop off2).take
          lim2)) := by
    intro off2 lim2
    rw [paginate_ok repo off2 lim2 ob d db stmt hdb hob hstmt,
      rows_paginate stmt hcols]
  have hsorted : List.Pairwise (ordLe ob d) (List.insertionSort (ordLe ob d)
      (db.filter (fun r => stmt.whereclause.all (fun p => p.eval r)))) :=
    List.sorted_insertionSort (ordLe ob d) _
  refine ⟨hpage off lim, ?_, ?_, ?_⟩
  · exact hsorted.sublist
      ((List.take_sublist _ _).trans (List.drop_sublist _ _))
  · exact List.length_take_le _ _
  · intro a b c ha hb hc
    have ha2 := (hpage 0 N).symm.trans ha
    have hb2 := (hpage N N).symm.trans hb
    have hc2 := (hpage 0 (N + N)).symm.trans hc
    obtain rfl : a = _ := (Except.ok.injEq _ _).mp ha2.symm
    obtain rfl : b = _ := (Except.ok.injEq _ _).mp hb2.symm
    obtain rfl : c = _ := (Except.ok.injEq _ _).mp hc2.symm
    simp [List.take_add]

/-- Witness for C8 at a concrete three-row table ordered by the field x
ascending with limit 2. -/
theorem claim_C8_witness :
    ((⟨⟨"User", ["id", "x"]⟩, some ⟨[⟨[("id", 1), ("x", 5)]⟩,
        ⟨[("id", 2), ("x", 3)]⟩, ⟨[("id", 3), ("x", 4)]⟩]⟩, none, none⟩ :
      SQLModelRepo).paginate 0 2 "x" false).result =
      .ok [⟨[("id", 2), ("x", 3)]⟩, ⟨[("id", 3), ("x", 4)]⟩] := by
  have h := (claim_C8 ⟨⟨"User", ["id", "x"]⟩, some ⟨[⟨[("id", 1), ("x", 5)]⟩,
      ⟨[("id", 2), ("x", 3)]⟩, ⟨[("id", 3), ("x", 4)]⟩]⟩, none, none⟩ 1 0 2
    "x" false [⟨[("id", 1), ("x", 5)]⟩, ⟨[("id", 2), ("x", 3)]⟩,
      ⟨[("id", 3), ("x", 4)]⟩] (select none) rfl (by decide) rfl rfl).1
  rw [h]
  rfl

/-- Setting an attribute makes it readable at its new value. -/
theorem find?_setAttrFields_same (l : List (String × Int)) (k : String)
    (v : Int) :
    (setAttrFields l k v).find? (fun kv => kv.1 == k) = some (k, v) := by
  induction l with
  | nil => simp [setAttrFields]
  | cons kv rest ih =>
    by_cases h : kv.1 = k
    · simp [setAttrFields, h]
    · simp [setAttrFields, List.find?, h, ih]

/-- Setting an attribute leaves every other attribute unchanged. -/
theorem find?_setAttrFields_other (l : List (String × Int)) (k : String)
    (v : Int) (k2 : String) (h : k2 ≠ k) :
    (setAttrFields l k v).find? (fun kv => kv.1 == k2) =
      l.find? (fun kv => kv.1 == k2) := by
  have hb : (k == k2) = false := beq_eq_false_iff_ne.mpr (Ne.symm h)
  induction l with
  | nil => simp [setAttrFields, List.find?, hb]
  | cons kv rest ih =>
    by_cases hk : kv.1 = k
    · have hb2 : (kv.1 == k2) = false :=
        beq_eq_false_iff_ne.mpr (hk ▸ Ne.symm h)
      simp [setAttrFields, hk, List.find?, hb, hb2]
    · by_cases h2 : kv.1 = k2
      · have hb2 : (kv.1 == k2) = true := by simp [h2]
        simp [setAttrFields, hk, List.find?, hb2]
      · have hb2 : (kv.1 == k2) = false := beq_eq_false_iff_ne.mpr h2
        simp [setAttrFields, hk, List.find?, hb2, ih]

/-- Record.get after Record.setattr at the same name. -/
theorem get_setattr_same (r : Record) (k : String) (v : Int) :
    (r.setattr k v).get k = some v := by
  simp [Record.setattr, Record.get, find?_setAttrFields_same]

/-- Record.get after Record.setattr at a different name. -/
theorem get_setattr_other (r : Record) (k : String) (v : Int) (k2 : String)
    (h : k2 ≠ k) : (r.setattr k v).get k2 = r.get k2 := by
  simp [Record.setattr, Record.get, find?_setAttrFields_other _ _ _ _ h]

/-- The field-by-field copy loop of save_or_update: with pairwise distinct
keys, every copied key reads the copied value, and every other key keeps
the target's value. -/
theorem get_foldl_setattr (kvs : List (String × Int)) (r : Record)
    (k : String) (hnd : (kvs.map Prod.fst).Nodup) :
    (kvs.foldl (fun acc kv => acc.setattr kv.1 kv.2) r).get k =
      (match kvs.find? (fun kv => kv.1 == k) with
        | some kv => some kv.2
        | none => r.get k) := by
  induction kvs generalizing r with
  | nil => simp
  | cons kv rest ih =>
    have hnd2 : (rest.map Prod.fst).Nodup := (List.nodup_cons.mp hnd).2
    have hstep : (kv :: rest).foldl
        (fun acc kv2 => acc.setattr kv2.1 kv2.2) r =
        rest.foldl (fun acc kv2 => acc.setattr kv2.1 kv2.2)
          (r.setattr kv.1 kv.2) := rfl
    by_cases h : kv.1 = k
    · have hknotin : rest.find? (fun kv2 => kv2.1 == k) = none := by
        rw [List.find?_eq_none]
        intro x hx hbx
        exact (List.nodup_cons.mp hnd).1
          (h ▸ ((by simpa using hbx : x.1 = k) ▸
            List.mem_map_of_mem Prod.fst hx))
      rw [hstep, ih _ hnd2, hknotin]
      simp [List.find?, h, h ▸ get_setattr_same r kv.1 kv.2]
    · have hb : (kv.1 == k) = false := beq_eq_false_iff_ne.mpr h
      rw [hstep, ih _ hnd2]
      cases hfind : rest.find? (fun kv2 => kv2.1 == k) <;>
        simp [List.find?, hb, hfind,
          get_setattr_other r kv.1 kv.2 k (Ne.symm h)]

/-- Claim C9: save_or_update looks up an existing record by the input's
primary key; when one exists, every field of the input is copied onto that
existing tracked record field-by-field (so it is updated in place), the
updated record replaces it in the database, and it becomes the refreshed
result; when none exists, the input instance itself is inserted and
persisted. -/
theorem claim_C9 (m : Model) (eng : Option Engine) (sopt : Option Sess)
    (ist : Option Stmt) (instanc : Record) (db : List Record)
    (hdb : effDb eng sopt = some db)
    (hid : "id" ∈ m.fieldNames)
    (hne : instanc.fields ≠ [])
    (hnd : (instanc.fields.map Prod.fst).Nodup) :
    (∀ ex, db.find? (fun r => optEq (r.get "id") (instanc.get "id")) =
        some ex →
      ∃ ex2, ((⟨m, eng, ist, sopt⟩ : SQLModelRepo).save_or_update
          instanc).result = .ok ex2 ∧
        ((⟨m, eng, ist, sopt⟩ : SQLModelRepo).save_or_update instanc).db =
          some (SQLModelRepo.replaceFirst db
            (fun r => optEq (r.get "id") (instanc.get "id")) ex2) ∧
        (∀ k v, instanc.get k = some v → ex2.get k = some v) ∧
        (∀ k, instanc.get k = none → ex2.get k = ex.get k)) ∧
    (db.find? (fun r => optEq (r.get "id") (instanc.get "id")) = none →
      ((⟨m, eng, ist, sopt⟩ : SQLModelRepo).save_or_update
          instanc).result = .ok instanc ∧
      ((⟨m, eng, ist, sopt⟩ : SQLModelRepo).save_or_update instanc).db =
        some (db ++ [instanc])) := by
  have hne2 : instanc.fields.isEmpty = false := by
    cases hf : instanc.fields with
    | nil => exact absurd hf hne
    | cons a l => rfl
  have hfind : ∀ s : Sess,
      ((((select none).addWhere [Predicate.eqExpr (Expr.attr "id")
        (instanc.get "id")]).rows s.db).head?) =
      s.db.find? (fun r => optEq (r.get "id") (instanc.get "id")) := by
    intro s
    rw [rows_select_none_addWhere, head?_filter_eq_find?]
    simp [Predicate.eval, Expr.evalE]
  constructor
  · intro ex hex
    refine ⟨instanc.fields.foldl (fun acc kv => acc.setattr kv.1 kv.2) ex,
      ?_, ?_, ?_, ?_⟩
    · cases sopt with
      | some s =>
        obtain rfl : s.db = db := by simpa [effDb] using hdb
        simp [SQLModelRepo.save_or_update, reuse_session_or_new,
          Model.getattr, hid, hfind s, hex, hne2]
      | none =>
        cases eng with
        | none => simp [effDb] at hdb
        | some e =>
          obtain rfl : e.db = db := by
            simpa [effDb, Sess.fromEngine] using hdb
          simp [SQLModelRepo.save_or_update, reuse_session_or_new,
            Sess.fromEngine, Model.getattr, hid, hfind ⟨e.db⟩, hex, hne2]
    · cases sopt with
      | some s =>
        obtain rfl : s.db = db := by simpa [effDb] using hdb
        simp [SQLModelRepo.save_or_update, reuse_session_or_new,
          Model.getattr, hid, hfind s, hex, hne2, Predicate.eval,
          Expr.evalE]
      | none =>
        cases eng with
        | none => simp [effDb] at hdb
        | some e =>
          obtain rfl : e.db = db := by
            simpa [effDb, Sess.fromEngine] using hdb
          simp [SQLModelRepo.save_or_update, reuse_session_or_new,
            Sess.fromEngine, Model.getattr, hid, hfind ⟨e.db⟩, hex, hne2,
            Predicate.eval, Expr.evalE]
    · intro k v hkv
      rw [get_foldl_setattr _ _ _ hnd]
      unfold Record.get at hkv
      cases hf : instanc.fields.find? (fun kv => kv.1 == k) with
      | none => rw [hf] at hkv; simp at hkv
      | some kv2 => rw [hf] at hkv; simp at hkv; simp [hf, hkv]
    · intro k hk
      rw [get_foldl_setattr _ _ _ hnd]
      unfold Record.get at hk
      cases hf : instanc.fields.find? (fun kv => kv.1 == k) with
      | none => simp [hf]
      | some kv2 => rw [hf] at hk; simp at hk
  · intro hnone
    constructor
    · cases sopt with
      | some s =>
        obtain rfl : s.db = db := by simpa [effDb] using hdb
        simp [SQLModelRepo.save_or_update, reuse_session_or_new,
          Model.getattr, hid, hfind s, hnone]
      | none =>
        cases eng with
        | none => simp [effDb] at hdb
        | some e =>
          obtain rfl : e.db = db := by
            simpa [effDb, Sess.fromEngine] using hdb
          simp [SQLModelRepo.save_or_update, reuse_session_or_new,
            Sess.fromEngine, Model.getattr, hid, hfind ⟨e.db⟩, hnone]
    · cases sopt with
      | some s =>
        obtain rfl : s.db = db := by simpa [effDb] using hdb
        simp [SQLModelRepo.save_or_update, reuse_session_or_new,
          Model.getattr, hid, hfind s, hnone]
      | none =>
        cases eng with
        | none => simp [effDb] at hdb
        | some e =>
          obtain rfl : e.db = db := by
            simpa [effDb, Sess.fromEngine] using hdb
          simp [SQLModelRepo.save_or_update, reuse_session_or_new,
            Sess.fromEngine, Model.getattr, hid, hfind ⟨e.db⟩, hnone]

/-- Witness for C9: updating an existing row copies the input's fields
onto it; saving a row with a fresh key appends it. -/
theorem claim_C9_witness :
    (∃ ex2, ((⟨⟨"User", ["id", "x"]⟩, some ⟨[⟨[("id", 1), ("x", 5)]⟩]⟩,
        none, none⟩ : SQLModelRepo).save_or_update
          ⟨[("id", 1), ("x", 7)]⟩).result = .ok ex2 ∧
      ex2.get "x" = some 7 ∧ ex2.get "id" = some 1) ∧
    ((⟨⟨"User", ["id", "x"]⟩, some ⟨[⟨[("id", 1), ("x", 5)]⟩]⟩, none,
        none⟩ : SQLModelRepo).save_or_update
          ⟨[("id", 2), ("x", 9)]⟩).result = .ok ⟨[("id", 2), ("x", 9)]⟩ ∧
    ((⟨⟨"User", ["id", "x"]⟩, some ⟨[⟨[("id", 1), ("x", 5)]⟩]⟩, none,
        none⟩ : SQLModelRepo).save_or_update ⟨[("id", 2), ("x", 9)]⟩).db =
      some [⟨[("id", 1), ("x", 5)]⟩, ⟨[("id", 2), ("x", 9)]⟩] := by
  constructor
  · obtain ⟨ex2, h1, _, hcopy, _⟩ :=
      (claim_C9 ⟨"User", ["id", "x"]⟩ (some ⟨[⟨[("id", 1), ("x", 5)]⟩]⟩)
        none none ⟨[("id", 1), ("x", 7)]⟩ [⟨[("id", 1), ("x", 5)]⟩] rfl
        (by decide) (by decide) (by decide)).1 ⟨[("id", 1), ("x", 5)]⟩ rfl
    exact ⟨ex2, h1, hcopy "x" 7 rfl, hcopy "id" 1 rfl⟩
  · exact (claim_C9 ⟨"User", ["id", "x"]⟩ (some ⟨[⟨[("id", 1), ("x", 5)]⟩]⟩)
      none none ⟨[("id", 2), ("x", 9)]⟩ [⟨[("id", 1), ("x", 5)]⟩] rfl
      (by decide) (by decide) (by decide)).2 rfl
